import Mathlib

/-!
Verification of the BuildingCEF build orchestration driver (`src/build.py`).

The driver is embedded shallowly: each Python function becomes a Lean
function over explicit inputs.  Subprocess invocations are modelled by a
`SpEvent` describing what the subprocess call did (the exit code it
returned, a missing-binary error, a keyboard interrupt delivered during
the blocking call, or some other runtime exception).  `KeyboardInterrupt`
is NOT an `Exception` subclass in Python 3, so the
`except FileNotFoundError` / `except Exception` handlers of a step let it propagate;
this is captured by `StepOut.interrupt` being a distinct constructor that
the step functions pass through untouched.  The filesystem state touched
by the Pipeline Executor (the `builds` output directory and the completion
marker file) is an explicit `FS` record threaded through `run_cef_container`
and `main`.
-/

namespace BuildingCEF

/-- Severity tags of the logging helpers `log_info` / `log_success` /
`log_warning` / `log_error` / `log_step` in `build.py` (lines 30-43). -/
inductive LogLevel
  | info
  | success
  | warning
  | error
  | step
deriving DecidableEq

/-- One console message, with its severity tag. -/
structure LogMsg where
  level : LogLevel
  text : String
deriving DecidableEq

/-- State of the `build-config.json` resource as seen by `load_config`:
absent, present but unparsable (in Python, `json.load` raises with some
message), or present and parsed to a dict of entries. -/
inductive ConfigFile
  | absent
  | invalid (err : String)
  | valid (entries : List (String × String))
deriving DecidableEq

/-- Embedding of `load_config` (build.py lines 45-51): returns `{}` when the file is
absent; otherwise opens it and calls `json.load`, whose parse error
propagates (there is no surrounding handler in `load_config`). -/
def load_config (cf : ConfigFile) : Except String (List (String × String)) :=
  match cf with
  | .absent => .ok []
  | .invalid err => .error err
  | .valid entries => .ok entries

/-- ASCII lowercasing of a string, character by character; this is what
the Python `str.lower()` method does on the ASCII platform names `platform.system()`
produces (`Linux`, `Windows`, `Darwin`, ...).  Defined by a structural
`List.map` so that it evaluates inside the kernel. -/
def str_lower (s : String) : String := ⟨s.data.map Char.toLower⟩

instance instDecEqExcept {ε α : Type} [DecidableEq ε] [DecidableEq α] :
    DecidableEq (Except ε α) := fun a b =>
  match a, b with
  | .ok x, .ok y =>
      if h : x = y then .isTrue (by rw [h]) else .isFalse (by simp [h])
  | .ok _, .error _ => .isFalse (by simp)
  | .error _, .ok _ => .isFalse (by simp)
  | .error x, .error y =>
      if h : x = y then .isTrue (by rw [h]) else .isFalse (by simp [h])

/-- Embedding of `detect_os` (build.py lines 53-63): lowercases `platform.system()` and
maps `linux`/`windows`/`darwin` to the canonical host ids, raising
`Exception("Unsupported operating system: ...")` otherwise. -/
def detect_os (system_raw : String) : Except String String :=
  let system := str_lower system_raw
  if system = "linux" then .ok "linux"
  else if system = "windows" then .ok "windows"
  else if system = "darwin" then .ok "macos"
  else .error ("Unsupported operating system: " ++ system)

/-- Outcome of the `ctypes.windll.shell32.IsUserAnAdmin()` query inside
`check_privileges`: either it returns an elevation flag, or the platform
API is unavailable and the query raises. -/
inductive ElevationQuery
  | result (is_admin : Bool)
  | unavailable
deriving DecidableEq

/-- Embedding of `check_privileges` (build.py lines 65-77).  Only the `windows` profile
queries elevation; a failed (non-elevated) query returns `False` after an
error message, a raising query is caught by `except Exception` and logged
as a warning, after which control falls through to the final
`return True`. -/
def check_privileges (host_os : String) (q : ElevationQuery) :
    Bool × List LogMsg :=
  if host_os = "windows" then
    match q with
    | .result is_admin =>
        if !is_admin then
          (false,
           [⟨.error, "Windows builds require Administrator privileges"⟩,
            ⟨.info, "Please run \x27python build.py\x27 from an Administrator PowerShell/Command Prompt"⟩])
        else (true, [])
    | .unavailable =>
        (true, [⟨.warning, "Could not determine if running as Administrator"⟩])
  else (true, [])

/-- What a blocking `subprocess.run` call did: the child exited with a
code, the binary was missing (`FileNotFoundError`), a `KeyboardInterrupt`
arrived during the call, or some other `Exception` was raised. -/
inductive SpEvent
  | exited (code : Int)
  | file_not_found
  | interrupted
  | other_error (msg : String)
deriving DecidableEq

/-- How a step function finishes: it returns a boolean (with the
severity-tagged messages it logged on the way), a `KeyboardInterrupt`
propagates through its handlers (not an `Exception` in Python 3), or it
raises an exception of its own. -/
inductive StepOut
  | ret (ok : Bool) (logs : List LogMsg)
  | interrupt
  | raised (msg : String)
deriving DecidableEq

/-- Holds (`true`) exactly when the step returned `True` in Python. -/
def step_ok : StepOut → Bool
  | .ret true _ => true
  | _ => false

/-- The `script_map` dict of `run_bootstrap_script` (build.py lines
83-88): platform-specific bootstrap script path and command prefix. -/
def script_map (host_os : String) : Option (String × List String) :=
  if host_os = "linux" then
    some ("./scripts/bootstrap/install-docker.sh", ["/bin/bash"])
  else if host_os = "windows" then
    some (".\\scripts\\bootstrap\\install-docker.ps1",
          ["powershell.exe", "-ExecutionPolicy", "Bypass", "-File"])
  else if host_os = "macos" then
    some ("./scripts/bootstrap/install-docker-macos.sh", ["/bin/bash"])
  else none

/-- Embedding of `run_bootstrap_script` (build.py lines 79-128).  Exit code 0 returns
`True`; 3010 (reboot required) and 2 (manual setup) return `False` after
warnings; any other code returns `False` with the code embedded in the
error message; a missing script binary returns `False` with a distinct
message; a host outside `script_map` raises before the subprocess runs;
a `KeyboardInterrupt` during the subprocess call propagates. -/
def run_bootstrap_script (host_os : String) (ev : SpEvent) : StepOut :=
  match script_map host_os with
  | none => .raised ("Unsupported OS for bootstrap: " ++ host_os)
  | some (script_path, _) =>
    match ev with
    | .exited code =>
        if code = 0 then
          .ret true [⟨.success, "Docker installation verified successfully"⟩]
        else if code = 3010 then
          .ret false
            [⟨.warning, "System reboot required to complete Docker installation"⟩,
             ⟨.info, "Please reboot and run \x27python build.py\x27 again"⟩]
        else if code = 2 then
          .ret false
            [⟨.warning, "Manual Docker Desktop setup required"⟩,
             ⟨.info, "Please complete Docker Desktop setup and run \x27python build.py\x27 again"⟩]
        else
          .ret false
            [⟨.error, "Bootstrap script failed with exit code " ++ toString code⟩]
    | .file_not_found =>
        .ret false [⟨.error, "Bootstrap script not found: " ++ script_path⟩]
    | .interrupted => .interrupt
    | .other_error msg =>
        .ret false [⟨.error, "Failed to run bootstrap script: " ++ msg⟩]

/-- The `dockerfile_map` dict of `build_cef_container` (lines 134-138). -/
def dockerfile_map (host_os : String) : Option String :=
  if host_os = "linux" then some "Dockerfile.linux"
  else if host_os = "windows" then some "Dockerfile.windows"
  else if host_os = "macos" then some "Dockerfile.macos"
  else none

/-- The deterministic image tag `f"cef-builder-{host_os}"` computed
identically at build.py lines 141 and 175. -/
def image_tag (host_os : String) : String := "cef-builder-" ++ host_os

/-- The `docker build` argument vector of build.py lines 146-151, as a
function of the tag and manifest it is assembled from. -/
def build_cmd (tag dockerfile : String) : List String :=
  ["docker", "build", "-t", tag, "-f", dockerfile, "."]

/-- Embedding of `build_cef_container` (build.py lines 130-169).  Exit code 0 returns
`True`; any other code returns `False` with the code in the message; a
missing `docker` binary returns `False` with a distinct message; a host
outside `dockerfile_map` raises `KeyError` before the subprocess runs;
a `KeyboardInterrupt` propagates. -/
def build_cef_container (host_os : String) (ev : SpEvent) : StepOut :=
  match dockerfile_map host_os with
  | none => .raised ("KeyError: " ++ host_os)
  | some _ =>
    match ev with
    | .exited code =>
        if code = 0 then
          .ret true [⟨.success, "Successfully built " ++ image_tag host_os⟩]
        else
          .ret false [⟨.error, "Docker build failed with exit code " ++ toString code⟩]
    | .file_not_found =>
        .ret false
          [⟨.error, "Docker command not found. Please ensure Docker is installed and in PATH"⟩]
    | .interrupted => .interrupt
    | .other_error msg =>
        .ret false [⟨.error, "Failed to build container: " ++ msg⟩]

/-- The filesystem state the Pipeline Executor touches: whether the
`builds` output directory exists, and the content of the completion
marker file `builds/cef_build_complete.marker` (`none` when absent). -/
structure FS where
  builds_dir_exists : Bool
  marker : Option String
deriving DecidableEq

/-- Embedding of `os.makedirs(builds_dir, exist_ok=...)`: raises `FileExistsError`
when the directory exists and `exist_ok` is false, succeeds otherwise.
build.py line 179 always passes `exist_ok=True`. -/
def makedirs (exist_ok : Bool) (fs : FS) : Except String FS :=
  if fs.builds_dir_exists && !exist_ok then .error "FileExistsError"
  else .ok { fs with builds_dir_exists := true }

/-- The platform-specific bind-mount string of build.py lines 182-187. -/
def volume_mount (host_os : String) (builds_dir : String) : String :=
  if host_os = "windows" then builds_dir ++ ":C:\\workspace\\builds"
  else builds_dir ++ ":/workspace/builds"

/-- The line written to the completion marker at build.py line 210,
where `now` stands for `datetime.datetime.now().isoformat()`. -/
def marker_text (now : String) : String :=
  "CEF build completed successfully at " ++ now ++ "\n"

/-- Embedding of `run_cef_container` (build.py lines 171-222).  First ensures the
output directory exists (`exist_ok=True`, outside the `try`), then runs
the container.  Exit code 0 writes (opening with mode `w`, i.e. a
whole-file overwrite) the completion marker and returns `True`; any other
code returns `False` leaving the marker untouched; a missing `docker`
binary returns `False`; a `KeyboardInterrupt` propagates.  Returns the
step outcome together with the updated filesystem. -/
def run_cef_container (host_os : String) (ev : SpEvent) (now : String)
    (fs : FS) : StepOut × FS :=
  match makedirs true fs with
  | .error e => (.raised e, fs)
  | .ok fs1 =>
    match ev with
    | .exited code =>
        if code = 0 then
          (.ret true [⟨.success, "CEF build completed successfully"⟩],
           { fs1 with marker := some (marker_text now) })
        else
          (.ret false [⟨.error, "CEF build failed with exit code " ++ toString code⟩],
           fs1)
    | .file_not_found =>
        (.ret false
          [⟨.error, "Docker command not found. Please ensure Docker is installed and in PATH"⟩],
         fs1)
    | .interrupted => (.interrupt, fs1)
    | .other_error msg =>
        (.ret false [⟨.error, "Failed to run container: " ++ msg⟩], fs1)

/-- Everything ambient that one invocation of the driver reads: the
command line, the config resource, `platform.system()`, the elevation
query, what each of the three subprocess calls would do, the current
timestamp, and the starting filesystem. -/
structure World where
  argv : List String
  config_file : ConfigFile
  system_name : String
  elevation : ElevationQuery
  bootstrap_ev : SpEvent
  build_ev : SpEvent
  run_ev : SpEvent
  now : String
  fs : FS
deriving DecidableEq

/-- How the process ends: `sys.exit(main())` with a status code, or an
exception escaping `main` uncaught (e.g. the `json.load` parse error at
build.py line 50, raised at line 263 outside the `try` of line 268). -/
inductive ProgResult
  | exit (code : Int)
  | crashed (msg : String)
deriving DecidableEq

/-- Result of one driver invocation: the process outcome, the final
filesystem, and which of the three subprocess pipeline steps
(`bootstrap`, `build`, `run`) were actually invoked, in order. -/
structure RunOutcome where
  result : ProgResult
  fs : FS
  steps_invoked : List String
deriving DecidableEq

/-- The three sequential subprocess steps of `main` (build.py lines
277-294): bootstrap, container build, container run, each guarded by the
success of its predecessor, together with the surrounding exception
handlers of `main` (`KeyboardInterrupt` at line 296 maps to 130, any `Exception`
raised by a step at line 299 maps to 1). -/
def pipeline (host_os : String) (w : World) : RunOutcome :=
  match run_bootstrap_script host_os w.bootstrap_ev with
          | .interrupt =>
              { result := .exit 130, fs := w.fs, steps_invoked := ["bootstrap"] }
          | .raised _ =>
              { result := .exit 1, fs := w.fs, steps_invoked := ["bootstrap"] }
          | .ret false _ =>
              { result := .exit 1, fs := w.fs, steps_invoked := ["bootstrap"] }
          | .ret true _ =>
            match build_cef_container host_os w.build_ev with
            | .interrupt =>
                { result := .exit 130, fs := w.fs,
                  steps_invoked := ["bootstrap", "build"] }
            | .raised _ =>
                { result := .exit 1, fs := w.fs,
                  steps_invoked := ["bootstrap", "build"] }
            | .ret false _ =>
                { result := .exit 1, fs := w.fs,
                  steps_invoked := ["bootstrap", "build"] }
            | .ret true _ =>
              match run_cef_container host_os w.run_ev w.now w.fs with
              | (.interrupt, fs2) =>
                  { result := .exit 130, fs := fs2,
                    steps_invoked := ["bootstrap", "build", "run"] }
              | (.raised _, fs2) =>
                  { result := .exit 1, fs := fs2,
                    steps_invoked := ["bootstrap", "build", "run"] }
              | (.ret false _, fs2) =>
                  { result := .exit 1, fs := fs2,
                    steps_invoked := ["bootstrap", "build", "run"] }
              | (.ret true _, fs2) =>
                  { result := .exit 0, fs := fs2,
                    steps_invoked := ["bootstrap", "build", "run"] }

/-- Embedding of `main` (build.py lines 252-301) composed with the `sys.exit(main())`
at line 304.  Help flag short-circuits with 0; `load_config` runs outside
the `try`, so its parse error crashes the process; inside the `try`,
`detect_os` failures and privilege failures yield status 1, and the rest
is the three-step `pipeline`. -/
def main (w : World) : RunOutcome :=
  if w.argv.contains "--help" || w.argv.contains "-h" then
    { result := .exit 0, fs := w.fs, steps_invoked := [] }
  else
    match load_config w.config_file with
    | .error e => { result := .crashed e, fs := w.fs, steps_invoked := [] }
    | .ok _config =>
      match detect_os w.system_name with
      | .error _ => { result := .exit 1, fs := w.fs, steps_invoked := [] }
      | .ok host_os =>
        if !(check_privileges host_os w.elevation).1 then
          { result := .exit 1, fs := w.fs, steps_invoked := [] }
        else
          pipeline host_os w


def fs_cold : FS := { builds_dir_exists := false, marker := none }

def w_action_required : World :=
  { argv := [], config_file := .absent, system_name := "Darwin",
    elevation := .result true, bootstrap_ev := .exited 2,
    build_ev := .exited 0, run_ev := .exited 0,
    now := "2026-10-12T00:00:00", fs := fs_cold }

def w_bad_config : World :=
  { argv := [], config_file := .invalid "Expecting value: line 1 column 1 (char 0)",
    system_name := "Linux", elevation := .result true, bootstrap_ev := .exited 0,
    build_ev := .exited 0, run_ev := .exited 0,
    now := "2026-10-12T00:00:00", fs := fs_cold }

def w_no_config : World := { w_bad_config with config_file := .absent }

def run_world (sys : String) (elev : ElevationQuery) (now : String) (fs : FS) :
    World :=
  { argv := [], config_file := .absent, system_name := sys, elevation := elev,
    bootstrap_ev := .exited 0, build_ev := .exited 0, run_ev := .exited 0,
    now := now, fs := fs }

def w_build_fails : World := { run_world "Linux" (.result true) "t1" fs_cold with
  build_ev := .exited 5 }

def w_run_fails : World := { run_world "Linux" (.result true) "t1" fs_cold with
  run_ev := .exited 9 }

def w_boot_intr : World := { run_world "Linux" (.result true) "t1" fs_cold with
  bootstrap_ev := .interrupted }

def w_build_intr : World := { run_world "Linux" (.result true) "t1" fs_cold with
  build_ev := .interrupted }

def w_run_intr : World := { run_world "Linux" (.result true) "t1" fs_cold with
  run_ev := .interrupted }

theorem str_append_ne (a b x y : String) (n : Nat)
    (h1 : n ≤ a.data.length) (h2 : n ≤ b.data.length)
    (hne : a.data.take n ≠ b.data.take n) :
    a ++ x ≠ b ++ y := by
  intro h
  apply hne
  have hd : a.data ++ x.data = b.data ++ y.data := congrArg String.data h
  have h3 := congrArg (List.take n) hd
  rwa [List.take_append_of_le_length h1, List.take_append_of_le_length h2] at h3

theorem marker_text_inj {n1 n2 : String} (h : marker_text n1 = marker_text n2) :
    n1 = n2 := by
  unfold marker_text at h
  have hd : ("CEF build completed successfully at ".data ++ n1.data) ++ "\n".data
      = ("CEF build completed successfully at ".data ++ n2.data) ++ "\n".data :=
    congrArg String.data h
  exact String.ext (List.append_cancel_left (List.append_cancel_right hd))

theorem detect_os_ok_iff (s h : String) :
    detect_os s = .ok h ↔
      (str_lower s = "linux" ∧ h = "linux") ∨
      (str_lower s = "windows" ∧ h = "windows") ∨
      (str_lower s = "darwin" ∧ h = "macos") := by
  simp only [detect_os]
  split_ifs with h1 h2 h3
  · constructor
    · intro h2
      exact Or.inl ⟨h1, (Except.ok.inj h2).symm⟩
    · rintro (⟨_, rfl⟩ | ⟨hx, _⟩ | ⟨hx, _⟩)
      · rfl
      · exact absurd (h1.symm.trans hx) (by decide)
      · exact absurd (h1.symm.trans hx) (by decide)
  · constructor
    · intro h3
      exact Or.inr (Or.inl ⟨h2, (Except.ok.inj h3).symm⟩)
    · rintro (⟨hx, _⟩ | ⟨_, rfl⟩ | ⟨hx, _⟩)
      · exact absurd hx h1
      · rfl
      · exact absurd (h2.symm.trans hx) (by decide)
  · constructor
    · intro h4
      exact Or.inr (Or.inr ⟨h3, (Except.ok.inj h4).symm⟩)
    · rintro (⟨hx, _⟩ | ⟨hx, _⟩ | ⟨_, rfl⟩)
      · exact absurd hx h1
      · exact absurd hx h2
      · rfl
  · constructor
    · intro h4
      simp at h4
    · rintro (⟨hx, _⟩ | ⟨hx, _⟩ | ⟨hx, _⟩)
      · exact absurd hx h1
      · exact absurd hx h2
      · exact absurd hx h3

theorem detect_os_ok_cases {s h : String} (hd : detect_os s = .ok h) :
    h = "linux" ∨ h = "windows" ∨ h = "macos" := by
  rcases (detect_os_ok_iff s h).mp hd with ⟨_, rfl⟩ | ⟨_, rfl⟩ | ⟨_, rfl⟩ <;> simp

theorem main_pipeline {w : World} (h : (main w).steps_invoked ≠ []) :
    ∃ host, detect_os w.system_name = .ok host ∧ main w = pipeline host w := by
  by_cases hh : ("--help" ∈ w.argv ∨ "-h" ∈ w.argv)
  · exact absurd (by simp [main, hh]) h
  · rcases hc : load_config w.config_file with e | cfg
    · exact absurd (by simp [main, hh, hc]) h
    · rcases hd : detect_os w.system_name with e | host
      · exact absurd (by simp [main, hh, hc, hd]) h
      · by_cases hp : (check_privileges host w.elevation).1 = true
        · refine ⟨host, ?_, ?_⟩ <;> simp [main, hh, hc, hd, hp]
        · have hp2 : (check_privileges host w.elevation).1 = false := by
            simpa using hp
          exact absurd (by simp [main, hh, hc, hd, hp2]) h


theorem pipeline_bootstrap_false {host : String} {w : World} {logs : List LogMsg}
    (hb : run_bootstrap_script host w.bootstrap_ev = .ret false logs) :
    pipeline host w
      = { result := .exit 1, fs := w.fs, steps_invoked := ["bootstrap"] } := by
  unfold pipeline
  rw [hb]

theorem pipeline_bootstrap_interrupt {host : String} {w : World}
    (hb : run_bootstrap_script host w.bootstrap_ev = .interrupt) :
    pipeline host w
      = { result := .exit 130, fs := w.fs, steps_invoked := ["bootstrap"] } := by
  unfold pipeline
  rw [hb]

theorem pipeline_bootstrap_mem (host : String) (w : World) :
    "bootstrap" ∈ (pipeline host w).steps_invoked := by
  unfold pipeline
  split <;> (try split) <;> (try split) <;> simp

theorem pipeline_build_mem {host : String} {w : World} {logs : List LogMsg}
    (hb : run_bootstrap_script host w.bootstrap_ev = .ret true logs) :
    "build" ∈ (pipeline host w).steps_invoked := by
  unfold pipeline
  rw [hb]
  dsimp only
  split <;> (try split) <;> simp

theorem pipeline_no_crash (host : String) (w : World) (m : String) :
    (pipeline host w).result ≠ .crashed m := by
  unfold pipeline
  split <;> (try split) <;> (try split) <;> simp

theorem pipeline_build_invoked {host : String} {w : World}
    (h : "build" ∈ (pipeline host w).steps_invoked) :
    ∃ l1, run_bootstrap_script host w.bootstrap_ev = .ret true l1 := by
  unfold pipeline at h
  split at h
  · simp at h
  · simp at h
  · simp at h
  · exact ⟨_, by assumption⟩

theorem pipeline_run_invoked {host : String} {w : World}
    (h : "run" ∈ (pipeline host w).steps_invoked) :
    (∃ l1, run_bootstrap_script host w.bootstrap_ev = .ret true l1) ∧
    (∃ l2, build_cef_container host w.build_ev = .ret true l2) := by
  unfold pipeline at h
  split at h
  · simp at h
  · simp at h
  · simp at h
  · split at h
    · simp at h
    · simp at h
    · simp at h
    · exact ⟨⟨_, by assumption⟩, ⟨_, by assumption⟩⟩

theorem host_maps {host : String}
    (hh : host = "linux" ∨ host = "windows" ∨ host = "macos") :
    (∃ p pre, script_map host = some (p, pre)) ∧
    (∃ d, dockerfile_map host = some d) := by
  rcases hh with rfl | rfl | rfl <;> exact ⟨⟨_, _, rfl⟩, _, rfl⟩

theorem run_bootstrap_nonzero {host p : String} {pre : List String}
    (hm : script_map host = some (p, pre)) {c : Int}
    (h0 : c ≠ 0) (h2 : c ≠ 2) (h3 : c ≠ 3010) :
    run_bootstrap_script host (.exited c) =
      .ret false [⟨.error, "Bootstrap script failed with exit code " ++ toString c⟩] := by
  unfold run_bootstrap_script
  rw [hm]
  simp [h0, h2, h3]

theorem build_cef_container_nonzero {host d : String}
    (hm : dockerfile_map host = some d) {c : Int} (hc : c ≠ 0) :
    build_cef_container host (.exited c) =
      .ret false [⟨.error, "Docker build failed with exit code " ++ toString c⟩] := by
  unfold build_cef_container
  rw [hm]
  simp [hc]


/-- C4: every platform identifier whose lowercasing is none of the three
recognized ones makes `detect_os` raise the unsupported-host error, and
exactly the three recognized identifiers map deterministically to the
matching canonical profiles `linux` / `windows` / `macos`. -/
theorem C4_host_resolver :
    (∀ s, str_lower s ≠ "linux" → str_lower s ≠ "windows" → str_lower s ≠ "darwin" →
        detect_os s = .error ("Unsupported operating system: " ++ str_lower s)) ∧
    (∀ s, str_lower s = "linux" → detect_os s = .ok "linux") ∧
    (∀ s, str_lower s = "windows" → detect_os s = .ok "windows") ∧
    (∀ s, str_lower s = "darwin" → detect_os s = .ok "macos") ∧
    (∀ s h, detect_os s = .ok h → h = "linux" ∨ h = "windows" ∨ h = "macos") := by
  refine ⟨?_, ?_, ?_, ?_, ?_⟩
  · intro s h1 h2 h3
    simp [detect_os, h1, h2, h3]
  · intro s h1
    simp [detect_os, h1]
  · intro s h1
    simp [detect_os, h1]
  · intro s h1
    simp [detect_os, h1]
  · exact fun s h hd => detect_os_ok_cases hd

/-- Witness for C4 at concrete platform names. -/
theorem C4_host_resolver_witness :
    detect_os "FreeBSD" = .error ("Unsupported operating system: " ++ str_lower "FreeBSD") ∧
    detect_os "Linux" = .ok "linux" ∧
    detect_os "Windows" = .ok "windows" ∧
    detect_os "Darwin" = .ok "macos" ∧
    ("macos" = "linux" ∨ "macos" = "windows" ∨ "macos" = "macos") :=
  ⟨C4_host_resolver.1 "FreeBSD" (by decide) (by decide) (by decide),
   C4_host_resolver.2.1 "Linux" (by decide),
   C4_host_resolver.2.2.1 "Windows" (by decide),
   C4_host_resolver.2.2.2.1 "Darwin" (by decide),
   C4_host_resolver.2.2.2.2 "Darwin" "macos" (C4_host_resolver.2.2.2.1 "Darwin" (by decide))⟩

/-- C10: the platform descriptor recognized for the `macos` profile is
exactly the lowercased name `darwin`; the literal `macos` is not
recognized and raises the unsupported-host error. -/
theorem C10_darwin_recognized :
    (∀ s, detect_os s = .ok "macos" ↔ str_lower s = "darwin") ∧
    detect_os "Darwin" = .ok "macos" ∧
    detect_os "macos" = .error "Unsupported operating system: macos" := by
  refine ⟨?_, by decide, by decide⟩
  intro s
  rw [detect_os_ok_iff]
  constructor
  · rintro (⟨_, hx⟩ | ⟨_, hx⟩ | ⟨hx, _⟩)
    · exact absurd hx (by decide)
    · exact absurd hx (by decide)
    · exact hx
  · intro h1
    exact Or.inr (Or.inr ⟨h1, rfl⟩)

/-- Witness for C10. -/
theorem C10_darwin_recognized_witness :
    detect_os "DARWIN" = .ok "macos" :=
  (C10_darwin_recognized.1 "DARWIN").mpr (by decide)

/-- C5: the privilege gate returns `false` (without raising) for the
`windows` profile when the elevation query reports not-elevated, returns
`true` for every non-windows profile, and fail-opens with a warning when
the elevation query itself raises. -/
theorem C5_privilege_gate :
    check_privileges "windows" (.result false) =
      (false,
       [⟨.error, "Windows builds require Administrator privileges"⟩,
        ⟨.info, "Please run \x27python build.py\x27 from an Administrator PowerShell/Command Prompt"⟩]) ∧
    (∀ host q, host ≠ "windows" → check_privileges host q = (true, [])) ∧
    check_privileges "windows" .unavailable =
      (true, [⟨.warning, "Could not determine if running as Administrator"⟩]) := by
  refine ⟨by decide, ?_, by decide⟩
  intro host q hh
  simp [check_privileges, hh]

/-- Witness for C5. -/
theorem C5_privilege_gate_witness :
    check_privileges "linux" .unavailable = (true, []) :=
  C5_privilege_gate.2.1 "linux" .unavailable (by decide)

/-- C3: the Pipeline Executor writes the timestamped completion marker
exactly when the container run exits 0; every other outcome leaves the
marker untouched, and a non-zero exit returns failure. -/
theorem C3_completion_marker :
    (∀ host now fs,
        (run_cef_container host (.exited 0) now fs).2.marker = some (marker_text now) ∧
        step_ok (run_cef_container host (.exited 0) now fs).1 = true) ∧
    (∀ host now fs c, c ≠ 0 →
        (run_cef_container host (.exited c) now fs).1 =
          .ret false [⟨.error, "CEF build failed with exit code " ++ toString c⟩] ∧
        (run_cef_container host (.exited c) now fs).2.marker = fs.marker) ∧
    (∀ host now fs ev, ev ≠ .exited 0 →
        (run_cef_container host ev now fs).2.marker = fs.marker) := by
  refine ⟨?_, ?_, ?_⟩
  · intro host now fs
    simp [run_cef_container, makedirs, step_ok]
  · intro host now fs c hc
    simp [run_cef_container, makedirs, hc]
  · intro host now fs ev hev
    cases ev with
    | exited c =>
        by_cases hc : c = 0
        · exact absurd (by rw [hc]) hev
        · simp [run_cef_container, makedirs, hc]
    | file_not_found => simp [run_cef_container, makedirs]
    | interrupted => simp [run_cef_container, makedirs]
    | other_error m => simp [run_cef_container, makedirs]

/-- Witness for C3. -/
theorem C3_completion_marker_witness :
    ((run_cef_container "linux" (.exited 0) "t0" fs_cold).2.marker
        = some (marker_text "t0") ∧
      step_ok (run_cef_container "linux" (.exited 0) "t0" fs_cold).1 = true) ∧
    ((run_cef_container "linux" (.exited 7) "t0" fs_cold).1 =
        .ret false [⟨.error, "CEF build failed with exit code " ++ toString (7 : Int)⟩] ∧
      (run_cef_container "linux" (.exited 7) "t0" fs_cold).2.marker = fs_cold.marker) ∧
    (run_cef_container "linux" .file_not_found "t0" fs_cold).2.marker = fs_cold.marker :=
  ⟨C3_completion_marker.1 "linux" "t0" fs_cold,
   C3_completion_marker.2.1 "linux" "t0" fs_cold 7 (by decide),
   C3_completion_marker.2.2 "linux" "t0" fs_cold .file_not_found (by decide)⟩


theorem run_cef_container_nonzero (host now : String) (fs : FS) {c : Int}
    (hc : c ≠ 0) :
    run_cef_container host (.exited c) now fs =
      (.ret false [⟨.error, "CEF build failed with exit code " ++ toString c⟩],
       { fs with builds_dir_exists := true }) := by
  simp [run_cef_container, makedirs, hc]

/-- C2: bootstrap exit-code classification. -/
theorem C2_bootstrap_exit_code_contract :
    (∀ w, "bootstrap" ∈ (main w).steps_invoked → w.bootstrap_ev = .exited 0 →
        "build" ∈ (main w).steps_invoked) ∧
    (∀ w c, "bootstrap" ∈ (main w).steps_invoked → (c = 2 ∨ c = 3010) →
        w.bootstrap_ev = .exited c →
        "build" ∉ (main w).steps_invoked ∧ "run" ∉ (main w).steps_invoked) ∧
    (∀ host p pre c, script_map host = some (p, pre) →
        c ≠ 0 → c ≠ 2 → c ≠ 3010 →
        run_bootstrap_script host (.exited c) =
          .ret false [⟨.error, "Bootstrap script failed with exit code " ++ toString c⟩]) ∧
    (∀ host p pre, script_map host = some (p, pre) →
        run_bootstrap_script host .file_not_found =
          .ret false [⟨.error, "Bootstrap script not found: " ++ p⟩]) ∧
    (∀ (p : String) (c : Int), ("Bootstrap script not found: " ++ p) ≠
        ("Bootstrap script failed with exit code " ++ toString c)) := by
  refine ⟨?_, ?_, ?_, ?_, ?_⟩
  · intro w hmem hev
    obtain ⟨host, hd, heq⟩ := main_pipeline (List.ne_nil_of_mem hmem)
    rw [heq]
    obtain ⟨⟨p, pre, hsm⟩, _⟩ := host_maps (detect_os_ok_cases hd)
    have hb : run_bootstrap_script host w.bootstrap_ev =
        .ret true [⟨.success, "Docker installation verified successfully"⟩] := by
      rw [hev]
      unfold run_bootstrap_script
      rw [hsm]
      simp
    exact pipeline_build_mem hb
  · intro w c hmem hc hev
    obtain ⟨host, hd, heq⟩ := main_pipeline (List.ne_nil_of_mem hmem)
    obtain ⟨⟨p, pre, hsm⟩, _⟩ := host_maps (detect_os_ok_cases hd)
    have hb : ∃ logs, run_bootstrap_script host w.bootstrap_ev = .ret false logs := by
      rcases hc with rfl | rfl
      · refine ⟨[⟨.warning, "Manual Docker Desktop setup required"⟩,
          ⟨.info, "Please complete Docker Desktop setup and run \x27python build.py\x27 again"⟩], ?_⟩
        rw [hev]
        unfold run_bootstrap_script
        rw [hsm]
        simp
      · refine ⟨[⟨.warning, "System reboot required to complete Docker installation"⟩,
          ⟨.info, "Please reboot and run \x27python build.py\x27 again"⟩], ?_⟩
        rw [hev]
        unfold run_bootstrap_script
        rw [hsm]
        simp
    obtain ⟨logs, hb⟩ := hb
    rw [heq, pipeline_bootstrap_false hb]
    simp
  · exact fun host p pre c hm h0 h2 h3 => run_bootstrap_nonzero hm h0 h2 h3
  · intro host p pre hm
    unfold run_bootstrap_script
    rw [hm]
  · intro p c
    exact str_append_ne "Bootstrap script not found: "
      "Bootstrap script failed with exit code " p (toString c) 18
      (by decide) (by decide) (by decide)

/-- C9: strict sequencing. -/
theorem C9_strict_sequencing :
    (∀ w, "build" ∈ (main w).steps_invoked →
        ∃ host, detect_os w.system_name = .ok host ∧
          step_ok (run_bootstrap_script host w.bootstrap_ev) = true) ∧
    (∀ w, "run" ∈ (main w).steps_invoked →
        ∃ host, detect_os w.system_name = .ok host ∧
          step_ok (run_bootstrap_script host w.bootstrap_ev) = true ∧
          step_ok (build_cef_container host w.build_ev) = true) ∧
    (∀ w c, "build" ∈ (main w).steps_invoked → w.build_ev = .exited c → c ≠ 0 →
        "run" ∉ (main w).steps_invoked ∧ (main w).result = .exit 1) ∧
    (∀ w c, "run" ∈ (main w).steps_invoked → w.run_ev = .exited c → c ≠ 0 →
        (main w).result = .exit 1) := by
  refine ⟨?_, ?_, ?_, ?_⟩
  · intro w hmem
    obtain ⟨host, hd, heq⟩ := main_pipeline (List.ne_nil_of_mem hmem)
    rw [heq] at hmem
    obtain ⟨l1, hb⟩ := pipeline_build_invoked hmem
    exact ⟨host, hd, by rw [hb]; rfl⟩
  · intro w hmem
    obtain ⟨host, hd, heq⟩ := main_pipeline (List.ne_nil_of_mem hmem)
    rw [heq] at hmem
    obtain ⟨⟨l1, hb⟩, ⟨l2, hbc⟩⟩ := pipeline_run_invoked hmem
    exact ⟨host, hd, by rw [hb]; rfl, by rw [hbc]; rfl⟩
  · intro w c hmem hev hc
    obtain ⟨host, hd, heq⟩ := main_pipeline (List.ne_nil_of_mem hmem)
    rw [heq] at hmem ⊢
    obtain ⟨l1, hb⟩ := pipeline_build_invoked hmem
    obtain ⟨_, d, hdm⟩ := host_maps (detect_os_ok_cases hd)
    have hbf : build_cef_container host w.build_ev =
        .ret false [⟨.error, "Docker build failed with exit code " ++ toString c⟩] := by
      rw [hev]
      exact build_cef_container_nonzero hdm hc
    have hpip : pipeline host w =
        { result := .exit 1, fs := w.fs, steps_invoked := ["bootstrap", "build"] } := by
      unfold pipeline
      rw [hb, hbf]
    rw [hpip]
    exact ⟨by simp, rfl⟩
  · intro w c hmem hev hc
    obtain ⟨host, hd, heq⟩ := main_pipeline (List.ne_nil_of_mem hmem)
    rw [heq] at hmem ⊢
    obtain ⟨⟨l1, hb⟩, ⟨l2, hbc⟩⟩ := pipeline_run_invoked hmem
    have hpip : pipeline host w =
        { result := .exit 1, fs := { w.fs with builds_dir_exists := true },
          steps_invoked := ["bootstrap", "build", "run"] } := by
      unfold pipeline
      rw [hb, hbc, hev, run_cef_container_nonzero host w.now w.fs hc]
    rw [hpip]


/-- C8: interrupts map to exit status 130 and are never swallowed. -/
theorem C8_interrupt_exit_130 :
    (∀ w, "bootstrap" ∈ (main w).steps_invoked → w.bootstrap_ev = .interrupted →
        (main w).result = .exit 130) ∧
    (∀ w, "build" ∈ (main w).steps_invoked → w.build_ev = .interrupted →
        (main w).result = .exit 130) ∧
    (∀ w, "run" ∈ (main w).steps_invoked → w.run_ev = .interrupted →
        (main w).result = .exit 130) ∧
    (∀ host p pre, script_map host = some (p, pre) →
        run_bootstrap_script host .interrupted = .interrupt) ∧
    (∀ host d, dockerfile_map host = some d →
        build_cef_container host .interrupted = .interrupt) ∧
    (∀ host now fs, (run_cef_container host .interrupted now fs).1 = .interrupt) ∧
    (130 : Int) ≠ 0 ∧ (130 : Int) ≠ 1 := by
  refine ⟨?_, ?_, ?_, ?_, ?_, ?_, by decide, by decide⟩
  · intro w hmem hev
    obtain ⟨host, hd, heq⟩ := main_pipeline (List.ne_nil_of_mem hmem)
    obtain ⟨⟨p, pre, hsm⟩, _⟩ := host_maps (detect_os_ok_cases hd)
    have hb : run_bootstrap_script host w.bootstrap_ev = .interrupt := by
      rw [hev]
      unfold run_bootstrap_script
      rw [hsm]
    rw [heq, pipeline_bootstrap_interrupt hb]
  · intro w hmem hev
    obtain ⟨host, hd, heq⟩ := main_pipeline (List.ne_nil_of_mem hmem)
    rw [heq] at hmem ⊢
    obtain ⟨l1, hb⟩ := pipeline_build_invoked hmem
    obtain ⟨_, d, hdm⟩ := host_maps (detect_os_ok_cases hd)
    have hbi : build_cef_container host w.build_ev = .interrupt := by
      rw [hev]
      unfold build_cef_container
      rw [hdm]
    have hpip : pipeline host w =
        { result := .exit 130, fs := w.fs, steps_invoked := ["bootstrap", "build"] } := by
      unfold pipeline
      rw [hb, hbi]
    rw [hpip]
  · intro w hmem hev
    obtain ⟨host, hd, heq⟩ := main_pipeline (List.ne_nil_of_mem hmem)
    rw [heq] at hmem ⊢
    obtain ⟨⟨l1, hb⟩, ⟨l2, hbc⟩⟩ := pipeline_run_invoked hmem
    have hri : run_cef_container host w.run_ev w.now w.fs =
        (.interrupt, { w.fs with builds_dir_exists := true }) := by
      rw [hev]
      simp [run_cef_container, makedirs]
    have hpip : pipeline host w =
        { result := .exit 130, fs := { w.fs with builds_dir_exists := true },
          steps_invoked := ["bootstrap", "build", "run"] } := by
      unfold pipeline
      rw [hb, hbc, hri]
    rw [hpip]
  · intro host p pre hm
    unfold run_bootstrap_script
    rw [hm]
  · intro host d hm
    unfold build_cef_container
    rw [hm]
  · intro host now fs
    simp [run_cef_container, makedirs]


/-- C1 counterexample: with bootstrap exiting 2 (ActionRequired), the
driver exits 1, which is NOT distinct from the hard-failure status 1. -/
theorem C1_counterexample :
    w_action_required.bootstrap_ev = .exited 2 ∧
    (main w_action_required).steps_invoked = ["bootstrap"] ∧
    (main w_action_required).result = .exit 1 ∧
    ¬((main w_action_required).result ≠ .exit 0 ∧
      (main w_action_required).result ≠ .exit 1) := by decide

/-- C1 amended: on an ActionRequired bootstrap outcome (exit 2 or 3010)
the driver terminates with status 1, identical to hard failure. -/
theorem C1_action_required_exits_one :
    ∀ w (c : Int), "bootstrap" ∈ (main w).steps_invoked → (c = 2 ∨ c = 3010) →
      w.bootstrap_ev = .exited c → (main w).result = .exit 1 := by
  intro w c hmem hc hev
  obtain ⟨host, hd, heq⟩ := main_pipeline (List.ne_nil_of_mem hmem)
  obtain ⟨⟨p, pre, hsm⟩, _⟩ := host_maps (detect_os_ok_cases hd)
  have hb : ∃ logs, run_bootstrap_script host w.bootstrap_ev = .ret false logs := by
    rcases hc with rfl | rfl
    · refine ⟨[⟨.warning, "Manual Docker Desktop setup required"⟩,
        ⟨.info, "Please complete Docker Desktop setup and run \x27python build.py\x27 again"⟩], ?_⟩
      rw [hev]
      unfold run_bootstrap_script
      rw [hsm]
      simp
    · refine ⟨[⟨.warning, "System reboot required to complete Docker installation"⟩,
        ⟨.info, "Please reboot and run \x27python build.py\x27 again"⟩], ?_⟩
      rw [hev]
      unfold run_bootstrap_script
      rw [hsm]
      simp
  obtain ⟨logs, hb⟩ := hb
  rw [heq, pipeline_bootstrap_false hb]

/-- Witness for the amended C1. -/
theorem C1_action_required_exits_one_witness :
    (main w_action_required).result = .exit 1 :=
  C1_action_required_exits_one w_action_required 2 (by decide) (Or.inl rfl)
    (by decide)

/-- C6 counterexample: a present-but-unparsable config crashes the driver
before any pipeline step, rather than degrading to defaults. -/
theorem C6_counterexample :
    (main w_bad_config).result
      = .crashed "Expecting value: line 1 column 1 (char 0)" ∧
    (main w_bad_config).steps_invoked = [] := by decide

/-- C6 amended: an absent config never halts the pipeline (it behaves as
the empty default config), but invalid content raises an uncaught parse
error that crashes the driver before any step runs. -/
theorem C6_config_tolerance :
    (∀ w m, w.config_file = .absent → (main w).result ≠ .crashed m) ∧
    (∀ w, w.config_file = .absent →
        main w = main { w with config_file := .valid [] }) ∧
    (∀ w m, w.config_file = .invalid m →
        (w.argv.contains "--help" || w.argv.contains "-h") = false →
        main w = { result := .crashed m, fs := w.fs, steps_invoked := [] }) := by
  refine ⟨?_, ?_, ?_⟩
  · intro w m hcfg
    by_cases hh : ("--help" ∈ w.argv ∨ "-h" ∈ w.argv)
    · simp [main, hh]
    · rcases hd : detect_os w.system_name with e | host
      · simp [main, hh, hcfg, load_config, hd]
      · by_cases hp : (check_privileges host w.elevation).1 = true
        · have hmp : main w = pipeline host w := by
            simp [main, hh, hcfg, load_config, hd, hp]
          rw [hmp]
          exact pipeline_no_crash host w m
        · have hp2 : (check_privileges host w.elevation).1 = false := by
            simpa using hp
          simp [main, hh, hcfg, load_config, hd, hp2]
  · intro w hcfg
    obtain ⟨argv, cf, sys, elev, bev, dev, rev, nw, fs⟩ := w
    cases hcfg
    rfl
  · intro w m hcfg hh
    simp only [Bool.or_eq_false_iff] at hh
    obtain ⟨h1, h2⟩ := hh
    simp at h1 h2
    simp [main, hcfg, load_config, h1, h2]

/-- Witness for the amended C6. -/
theorem C6_config_tolerance_witness :
    ((main w_no_config).result ≠ .crashed "boom") ∧
    main w_no_config = main { w_no_config with config_file := .valid [] } ∧
    main w_bad_config =
      { result := .crashed "Expecting value: line 1 column 1 (char 0)",
        fs := w_bad_config.fs, steps_invoked := [] } :=
  ⟨C6_config_tolerance.1 w_no_config "boom" rfl,
   C6_config_tolerance.2.1 w_no_config rfl,
   C6_config_tolerance.2.2 w_bad_config _ rfl (by decide)⟩


theorem main_all_success {sys host : String} {elev : ElevationQuery}
    (hd : detect_os sys = .ok host) (hp : (check_privileges host elev).1 = true)
    (now : String) (fs : FS) :
    main (run_world sys elev now fs) =
      { result := .exit 0,
        fs := { builds_dir_exists := true, marker := some (marker_text now) },
        steps_invoked := ["bootstrap", "build", "run"] } := by
  rcases detect_os_ok_cases hd with h | h | h <;> subst h <;>
    simp [main, run_world, load_config, hd, hp, pipeline, run_bootstrap_script,
      script_map, build_cef_container, dockerfile_map, run_cef_container,
      makedirs, image_tag]

/-- C7: driver idempotence across two immediate invocations. -/
theorem C7_second_run_idempotent :
    ∀ sys host elev now1 now2,
      detect_os sys = .ok host → (check_privileges host elev).1 = true →
      now1 ≠ now2 →
      (main (run_world sys elev now1 fs_cold)).result = .exit 0 ∧
      (main (run_world sys elev now1 fs_cold)).fs.builds_dir_exists = true ∧
      (main (run_world sys elev now1 fs_cold)).fs.marker
        = some (marker_text now1) ∧
      (main (run_world sys elev now2
          (main (run_world sys elev now1 fs_cold)).fs)).result = .exit 0 ∧
      (main (run_world sys elev now2
          (main (run_world sys elev now1 fs_cold)).fs)).fs.marker
        = some (marker_text now2) ∧
      (main (run_world sys elev now2
          (main (run_world sys elev now1 fs_cold)).fs)).fs.marker
        ≠ (main (run_world sys elev now1 fs_cold)).fs.marker ∧
      (∀ fs, makedirs true fs = .ok { fs with builds_dir_exists := true }) ∧
      image_tag host = "cef-builder-" ++ host := by
  intro sys host elev now1 now2 hd hp hn
  have h1 := main_all_success hd hp now1 fs_cold
  have h2 := main_all_success hd hp now2
    (main (run_world sys elev now1 fs_cold)).fs
  rw [h2, h1]
  refine ⟨rfl, rfl, rfl, rfl, rfl, ?_, ?_, rfl⟩
  · intro hcontra
    exact hn (marker_text_inj (Option.some.inj hcontra)).symm
  · intro fs
    simp [makedirs]

/-- Witness for C7 at a concrete linux run. -/
theorem C7_second_run_idempotent_witness :
    (main (run_world "Linux" (.result true) "t1" fs_cold)).result = .exit 0 ∧
    (main (run_world "Linux" (.result true) "t1" fs_cold)).fs.builds_dir_exists
      = true ∧
    (main (run_world "Linux" (.result true) "t1" fs_cold)).fs.marker
      = some (marker_text "t1") ∧
    (main (run_world "Linux" (.result true) "t2"
        (main (run_world "Linux" (.result true) "t1" fs_cold)).fs)).result
      = .exit 0 ∧
    (main (run_world "Linux" (.result true) "t2"
        (main (run_world "Linux" (.result true) "t1" fs_cold)).fs)).fs.marker
      = some (marker_text "t2") ∧
    (main (run_world "Linux" (.result true) "t2"
        (main (run_world "Linux" (.result true) "t1" fs_cold)).fs)).fs.marker
      ≠ (main (run_world "Linux" (.result true) "t1" fs_cold)).fs.marker ∧
    (∀ fs, makedirs true fs = .ok { fs with builds_dir_exists := true }) ∧
    image_tag "linux" = "cef-builder-" ++ "linux" :=
  C7_second_run_idempotent "Linux" "linux" (.result true) "t1" "t2"
    (by decide) (by decide) (by decide)

/-- Witness for C2 at concrete runs. -/
theorem C2_bootstrap_exit_code_contract_witness :
    "build" ∈ (main (run_world "Linux" (.result true) "t1" fs_cold)).steps_invoked ∧
    ("build" ∉ (main w_action_required).steps_invoked ∧
      "run" ∉ (main w_action_required).steps_invoked) ∧
    run_bootstrap_script "linux" (.exited 7) =
      .ret false [⟨.error, "Bootstrap script failed with exit code " ++ toString (7 : Int)⟩] ∧
    run_bootstrap_script "linux" .file_not_found =
      .ret false [⟨.error, "Bootstrap script not found: "
        ++ "./scripts/bootstrap/install-docker.sh"⟩] ∧
    ("Bootstrap script not found: " ++ "./scripts/bootstrap/install-docker.sh") ≠
      ("Bootstrap script failed with exit code " ++ toString (7 : Int)) :=
  ⟨C2_bootstrap_exit_code_contract.1 (run_world "Linux" (.result true) "t1" fs_cold)
      (by decide) rfl,
   C2_bootstrap_exit_code_contract.2.1 w_action_required 2 (by decide)
      (Or.inl rfl) rfl,
   C2_bootstrap_exit_code_contract.2.2.1 "linux"
      "./scripts/bootstrap/install-docker.sh" ["/bin/bash"] 7 rfl
      (by decide) (by decide) (by decide),
   C2_bootstrap_exit_code_contract.2.2.2.1 "linux"
      "./scripts/bootstrap/install-docker.sh" ["/bin/bash"] rfl,
   C2_bootstrap_exit_code_contract.2.2.2.2
      "./scripts/bootstrap/install-docker.sh" 7⟩

/-- Witness for C9 at concrete runs. -/
theorem C9_strict_sequencing_witness :
    (∃ host, detect_os w_build_fails.system_name = .ok host ∧
      step_ok (run_bootstrap_script host w_build_fails.bootstrap_ev) = true) ∧
    (∃ host, detect_os w_run_fails.system_name = .ok host ∧
      step_ok (run_bootstrap_script host w_run_fails.bootstrap_ev) = true ∧
      step_ok (build_cef_container host w_run_fails.build_ev) = true) ∧
    ("run" ∉ (main w_build_fails).steps_invoked ∧
      (main w_build_fails).result = .exit 1) ∧
    (main w_run_fails).result = .exit 1 :=
  ⟨C9_strict_sequencing.1 w_build_fails (by decide),
   C9_strict_sequencing.2.1 w_run_fails (by decide),
   C9_strict_sequencing.2.2.1 w_build_fails 5 (by decide) rfl (by decide),
   C9_strict_sequencing.2.2.2 w_run_fails 9 (by decide) rfl (by decide)⟩

/-- Witness for C8 at concrete interrupted runs. -/
theorem C8_interrupt_exit_130_witness :
    (main w_boot_intr).result = .exit 130 ∧
    (main w_build_intr).result = .exit 130 ∧
    (main w_run_intr).result = .exit 130 ∧
    run_bootstrap_script "linux" .interrupted = .interrupt ∧
    build_cef_container "linux" .interrupted = .interrupt ∧
    (run_cef_container "linux" .interrupted "t1" fs_cold).1 = .interrupt :=
  ⟨C8_interrupt_exit_130.1 w_boot_intr (by decide) rfl,
   C8_interrupt_exit_130.2.1 w_build_intr (by decide) rfl,
   C8_interrupt_exit_130.2.2.1 w_run_intr (by decide) rfl,
   C8_interrupt_exit_130.2.2.2.1 "linux"
      "./scripts/bootstrap/install-docker.sh" ["/bin/bash"] rfl,
   C8_interrupt_exit_130.2.2.2.2.1 "linux" "Dockerfile.linux" rfl,
   C8_interrupt_exit_130.2.2.2.2.2.1 "linux" "t1" fs_cold⟩

end BuildingCEF
